import Mathlib

/-!
Shallow embedding of the solver-dispatch subsystem of `phi/math/_optimize.py`
(`Solve`, `SolveInfo`, `SolveTape`, `minimize`, `solve_nonlinear`,
`solve_linear` / `_linear_solve_forward`, `attach_gradient_solve`).

Modelling conventions:
* values handled by the external shape algebra (tensors, trees of tensors,
  native arrays) are an abstract type `V`; the external reshaping helpers
  (`reshaped_native`, `reshaped_tensor`, flatten/unflatten) are identities on
  `V`, as the spec declares the shape algebra out of scope;
* tensors of tolerances / iteration counts are scalars (`Rat` / `Nat`), since
  no claim depends on per-batch broadcasting of those numbers;
* boolean tensors (`converged` / `diverged`) are `FlagTensor`: a batch list of
  `Bool`s, optionally carrying a leading trajectory axis, together with an
  availability bit modelling `all_available` (concrete vs. symbolic values);
* Python exceptions are an explicit `Except PyError` result; Python warnings
  are counted or listed in the returned value;
* mutation (the `SolveTape` list, the lazily cached `_gradient_solve` field)
  is explicit state passing;
* `uuid.uuid4()` identity tokens are `Nat`s supplied by the caller; Python
  function-object identity (the `is` comparison on `preprocess_y`) is a `Nat`
  tag `fid` carried next to the function.
-/

set_option linter.unusedVariables false

/-- Convergence failure kinds: the two concrete `ConvergenceException`
subclasses `NotConverged` and `Diverged` of the source. -/
inductive ExcKind where
  | notConverged
  | diverged
  deriving DecidableEq, Repr

/-- Python-level failure modes surfaced by the embedded functions:
a raised `ConvergenceException`, a failed `assert` (with its message),
a `KeyError` or an `IndexError`. -/
inductive PyError where
  | convergence (k : ExcKind)
  | assertion (msg : String)
  | keyError
  | indexError
  deriving DecidableEq, Repr

/-- A value that may carry an extra leading `trajectory` batch dimension,
modelling phiml tensors with an optional trajectory axis. -/
inductive TrajVal (α : Type) where
  | single (v : α)
  | traj (vs : List α)
  deriving DecidableEq, Repr

/-- Python list indexing with negative-index support; `none` models an
`IndexError`. -/
def pyIdx (l : List α) (i : Int) : Option α :=
  if 0 ≤ i then l.get? i.toNat
  else if (-i).toNat ≤ l.length then l.get? (l.length - (-i).toNat)
  else none

/-- Modelled from the spec: slicing `t.trajectory[index]` of the external
tensor library `phiml` (not in src). Slicing a dimension the tensor does not
have leaves the tensor unchanged; this semantics is forced by the source
itself, which applies `.trajectory[-1]` to trajectory-free `converged`
tensors in `SolveInfo.__init__` and `convergence_check` on every ordinary
solve. On a trajectory-carrying value the axis is consumed. -/
def TrajVal.atIdx : TrajVal α → Int → Option (TrajVal α)
  | .single v, _ => some (.single v)
  | .traj vs, i => (pyIdx vs i).map TrajVal.single

/-- Whether a value carries the trajectory axis. -/
def TrajVal.isTraj : TrajVal α → Bool
  | .single _ => false
  | .traj _ => true

/-- A boolean tensor (`converged` / `diverged` flags): a batch of booleans,
optionally with a leading trajectory axis, plus an availability bit modelling
`all_available` (false when the value is still symbolic / traced). -/
structure FlagTensor where
  avail : Bool
  vals : TrajVal (List Bool)
  deriving DecidableEq, Repr

/-- The `.any` reduction of a boolean tensor (over all axes, the trajectory
axis included). -/
def FlagTensor.anyTrue (f : FlagTensor) : Bool :=
  match f.vals with
  | .single bs => bs.any id
  | .traj steps => steps.any (fun bs => bs.any id)

/-- The `.trajectory[-1].all` reduction used on `converged`: last trajectory
step (the tensor itself when no trajectory axis is present), then `.all`. -/
def FlagTensor.lastAll (f : FlagTensor) : Bool :=
  match f.vals with
  | .single bs => bs.all id
  | .traj steps => ((steps.getLast?).getD []).all id

/-- Trajectory slicing of a boolean tensor; availability is unchanged. -/
def FlagTensor.atIdx (f : FlagTensor) (i : Int) : Option FlagTensor :=
  (f.vals.atIdx i).map (fun v => { avail := f.avail, vals := v })

/-- A Python callable together with its object identity (`fid` models the
reference compared by the `is` operator); used for `preprocess_y`. The
function takes the right-hand side and the extra `preprocess_y_args`. -/
structure RefFn (V : Type) where
  fid : Nat
  fn : V → List V → V

/-- The `Solve` specification object (class `Solve` of the source): method
name, tolerances, iteration budget, initial guess, suppressed error kinds,
`preprocess_y` hook with its extra arguments, the lazily cached
`_gradient_solve` field and the `uuid` identity token. An inductive rather
than a structure because `_gradient_solve` holds another `Solve`. -/
inductive Solve (V : Type) : Type where
  | mk (method : String) (relative_tolerance : Rat) (absolute_tolerance : Rat)
      (max_iterations : Nat) (x0 : Option V) (suppress : List ExcKind)
      (preprocess_y : Option (RefFn V)) (preprocess_y_args : List V)
      (gradient_solve_cache : Option (Solve V)) (id : Nat)

def Solve.method : Solve V → String
  | .mk m _ _ _ _ _ _ _ _ _ => m

def Solve.relative_tolerance : Solve V → Rat
  | .mk _ rt _ _ _ _ _ _ _ _ => rt

def Solve.absolute_tolerance : Solve V → Rat
  | .mk _ _ abst _ _ _ _ _ _ _ => abst

def Solve.max_iterations : Solve V → Nat
  | .mk _ _ _ mi _ _ _ _ _ _ => mi

def Solve.x0 : Solve V → Option V
  | .mk _ _ _ _ x _ _ _ _ _ => x

def Solve.suppress : Solve V → List ExcKind
  | .mk _ _ _ _ _ sup _ _ _ _ => sup

def Solve.preprocess_y : Solve V → Option (RefFn V)
  | .mk _ _ _ _ _ _ py _ _ _ => py

def Solve.preprocess_y_args : Solve V → List V
  | .mk _ _ _ _ _ _ _ pya _ _ => pya

def Solve.gradient_solve_cache : Solve V → Option (Solve V)
  | .mk _ _ _ _ _ _ _ _ g _ => g

def Solve.id : Solve V → Nat
  | .mk _ _ _ _ _ _ _ _ _ i => i

/-- Modelled from the spec: `copy_with` (`phi/math/_magic_ops.py`, not in
src) duplicates the object replacing only the named attribute; every other
field, the identity token included, is kept. Replacing `x0`. -/
def Solve.withX0 : Solve V → Option V → Solve V
  | .mk m rt abst mi _ sup py pya g i, x => .mk m rt abst mi x sup py pya g i

/-- Modelled from the spec: `copy_with` replacing `absolute_tolerance`. -/
def Solve.withAtol : Solve V → Rat → Solve V
  | .mk m rt _ mi x sup py pya g i, abst => .mk m rt abst mi x sup py pya g i

/-- Modelled from the spec: `copy_with` replacing `relative_tolerance`. -/
def Solve.withRtol : Solve V → Rat → Solve V
  | .mk m _ abst mi x sup py pya g i, rt => .mk m rt abst mi x sup py pya g i

/-- Modelled from the spec: `copy_with` replacing `preprocess_y`. -/
def Solve.withPreY : Solve V → Option (RefFn V) → Solve V
  | .mk m rt abst mi x sup _ pya g i, py => .mk m rt abst mi x sup py pya g i

/-- Replacing the cached `_gradient_solve` field (the one mutation the class
performs on itself). -/
def Solve.withGrad : Solve V → Option (Solve V) → Solve V
  | .mk m rt abst mi x sup py pya _ i, g => .mk m rt abst mi x sup py pya g i

/-- Replacing the identity token (used to state id-independence facts). -/
def Solve.withId : Solve V → Nat → Solve V
  | .mk m rt abst mi x sup py pya g _, j => .mk m rt abst mi x sup py pya g j

/-- The `Solve.gradient_solve` property getter: on first access builds a new
spec sharing method, tolerances, iteration budget, suppression list and
preprocess hook with its arguments, with `x0 = None`, no cached gradient
solve of its own and a fresh identity token, and caches it; afterwards
returns the cached spec. Returns the gradient spec together with the
(possibly updated) parent. -/
def Solve.gradient_solve_get (s : Solve V) (freshId : Nat) : Solve V × Solve V :=
  match s.gradient_solve_cache with
  | some g => (g, s)
  | none =>
    let g : Solve V := .mk s.method s.relative_tolerance s.absolute_tolerance
      s.max_iterations none s.suppress s.preprocess_y s.preprocess_y_args none freshId
    (g, s.withGrad (some g))

/-- The `Solve.__eq__` comparison: method, tolerances, iteration budget,
`preprocess_y` object identity (the `is` operator, hence `fid`), the
`suppress` tuple and finally `x0`; the identity token and the cached
gradient solve are not consulted. -/
def Solve.eqPy [DecidableEq V] (a b : Solve V) : Bool :=
  if a.method ≠ b.method ∨ a.absolute_tolerance ≠ b.absolute_tolerance ∨
      a.relative_tolerance ≠ b.relative_tolerance ∨
      a.max_iterations ≠ b.max_iterations ∨
      a.preprocess_y.map RefFn.fid ≠ b.preprocess_y.map RefFn.fid ∨
      a.suppress ≠ b.suppress then
    false
  else
    decide (a.x0 = b.x0)

/-- The `SolveInfo` (spec name `SolveResult`) record: originating spec,
solution estimate, residual (possibly absent), iteration and evaluation
counts, convergence flags, backend-reported method, termination message and
wall-clock solve time. -/
structure SolveInfo (V : Type) where
  solve : Solve V
  x : TrajVal V
  residual : Option (TrajVal V)
  iterations : TrajVal Nat
  function_evaluations : TrajVal Nat
  converged : FlagTensor
  diverged : FlagTensor
  method : String
  msg : String
  solve_time : Rat

/-- The termination message auto-generated by `SolveInfo.__init__` from the
flags: diverged takes precedence, then non-convergence of the final step,
else success. The interpolated numeric details (iteration counts,
tolerances, residual maxima) of the source messages are abbreviated; no
claim inspects them, and each branch is a non-empty string as in the
source. -/
def autoMsg (divergedF convergedF : FlagTensor) (method : String) : String :=
  if divergedF.anyTrue then
    "Solve diverged using " ++ method ++ "."
  else if !convergedF.lastAll then
    "Solve did not converge using " ++ method ++ "."
  else
    "Converged using " ++ method ++ "."

/-- `SolveInfo.__init__`: stores the fields and, when the supplied message is
empty and both flags are concretely available, generates the termination
message from the flags. -/
def mkSolveInfo (solve : Solve V) (x : TrajVal V) (residual : Option (TrajVal V))
    (iterations function_evaluations : TrajVal Nat)
    (converged diverged : FlagTensor) (method msg : String) (solve_time : Rat) :
    SolveInfo V :=
  let msg2 := if msg = "" ∧ diverged.avail ∧ converged.avail then
      autoMsg diverged converged method
    else msg
  { solve := solve, x := x, residual := residual, iterations := iterations,
    function_evaluations := function_evaluations, converged := converged,
    diverged := diverged, method := method, msg := msg2, solve_time := solve_time }

/-- `SolveInfo.snapshot(index)`: rebuild a `SolveInfo` through the
constructor with every tracked quantity sliced at `trajectory[index]`,
keeping the spec, method, message and solve time. `none` models the
`AttributeError` on a missing residual or an `IndexError` on an invalid
index. -/
def SolveInfo.snapshot (self : SolveInfo V) (index : Int) : Option (SolveInfo V) :=
  match self.residual with
  | none => none
  | some res =>
    match self.x.atIdx index, res.atIdx index, self.iterations.atIdx index,
        self.function_evaluations.atIdx index, self.converged.atIdx index,
        self.diverged.atIdx index with
    | some x2, some r2, some it2, some fe2, some c2, some d2 =>
      some (mkSolveInfo self.solve x2 (some r2) it2 fe2 c2 d2 self.method
        self.msg self.solve_time)
    | _, _, _, _, _, _ => none

/-- `SolveInfo.convergence_check(only_warn)`: skipped entirely when the flags
are not concretely available; otherwise the divergence condition and then,
independently, the non-convergence condition are evaluated in sequence, each
skipped when its kind is suppressed, each either warning (`only_warn`) or
raising. `Except.error` is the raised kind, `Except.ok` lists the warnings
emitted. -/
def SolveInfo.convergence_check (self : SolveInfo V) (only_warn : Bool) :
    Except ExcKind (List ExcKind) :=
  if self.diverged.avail && self.converged.avail then
    let step1 : Except ExcKind (List ExcKind) :=
      if self.diverged.anyTrue then
        if ExcKind.diverged ∈ self.solve.suppress then .ok []
        else if only_warn then .ok [ExcKind.diverged]
        else .error ExcKind.diverged
      else .ok []
    match step1 with
    | .error k => .error k
    | .ok warns =>
      if !self.converged.lastAll then
        if ExcKind.notConverged ∈ self.solve.suppress then .ok warns
        else if only_warn then .ok (warns ++ [ExcKind.notConverged])
        else .error ExcKind.notConverged
      else .ok warns
  else
    .ok []

/-- The `SolveTape` recorder: trajectory-recording mode, the ordered list of
recorded results and the parallel list of originating spec ids. -/
structure SolveTape (V : Type) where
  record_trajectories : Bool
  solves : List (SolveInfo V)
  solve_ids : List Nat

/-- `SolveTape._add(solve, trj, result)`: warn (once, non-fatally) when a
result for the same spec id is already recorded; in trajectory mode require
the result to carry a trajectory (`assert trj`), in snapshot mode store the
last-step snapshot of a trajectory result, else store the result as-is; then
append the spec id. Returns the updated tape and the number of duplicate
warnings emitted. -/
def SolveTape.add (tape : SolveTape V) (solve : Solve V) (trj : Bool)
    (result : SolveInfo V) : Except PyError (SolveTape V × Nat) :=
  let warns := if tape.solves.any (fun s => s.solve.id == solve.id) then 1 else 0
  let store : SolveInfo V → SolveTape V := fun r =>
    { tape with solves := tape.solves ++ [r], solve_ids := tape.solve_ids ++ [solve.id] }
  if tape.record_trajectories then
    if trj then
      .ok (store result, warns)
    else
      .error (.assertion "Solve did not record a trajectory.")
  else if trj then
    match result.snapshot (-1) with
    | some snap => .ok (store snap, warns)
    | none => .error .indexError
  else
    .ok (store result, warns)

/-- `SolveTape.__getitem__` with an integer index: plain list indexing into
the recorded results. -/
def SolveTape.getByIndex (tape : SolveTape V) (i : Int) : Option (SolveInfo V) :=
  pyIdx tape.solves i

/-- `SolveTape.__getitem__` with a `Solve` key: filter the recorded results
by spec id; an empty match is a `KeyError`, more than one match fails the
`assert len(solves) == 1`, a unique match is returned. -/
def SolveTape.getBySolve (tape : SolveTape V) (item : Solve V) :
    Except PyError (SolveInfo V) :=
  let matches2 := tape.solves.filter (fun s => s.solve.id == item.id)
  match matches2 with
  | [] => .error .keyError
  | [s] => .ok s
  | _ => .error (.assertion "len(solves) == 1")

/-- The `for tape in _SOLVE_TAPES: tape._add(...)` loop: record the result
into every active tape, accumulating duplicate warnings, stopping at the
first tape assertion failure. -/
def tapesAddAll (tapes : List (SolveTape V)) (solve : Solve V) (trj : Bool)
    (result : SolveInfo V) : Except PyError (List (SolveTape V) × Nat) :=
  match tapes with
  | [] => .ok ([], 0)
  | t :: rest =>
    match t.add solve trj result with
    | .error e => .error e
    | .ok (t2, w) =>
      match tapesAddAll rest solve trj result with
      | .error e => .error e
      | .ok (rest2, w2) => .ok (t2 :: rest2, w + w2)

/-- Modelled from the spec: the fixed record a `NumericalBackend` primitive
returns per solve (`SolveResult` of `backend/_backend.py`, not in src):
solution, optional residual, iteration and function-evaluation counts,
converged and diverged flag batches, implementation method name and message.
The two extra availability bits model whether the flag tensors are
concretely resolvable (`all_available`) or still symbolic. -/
structure NativeSolveResult (V : Type) where
  x : V
  residual : Option V
  iterations : Nat
  function_evaluations : Nat
  converged : List Bool
  diverged : List Bool
  conv_avail : Bool
  div_avail : Bool
  method : String
  message : String

/-- What a backend primitive returns: a single result, or the per-iteration
sequence of results when a trajectory was requested. -/
inductive BackendRet (V : Type) where
  | single (r : NativeSolveResult V)
  | traj (rs : List (NativeSolveResult V))

/-- Modelled from the spec: the consumed `NumericalBackend` capability
interface (the backend package is not in src): identification `name`, the
`linear_solve` and `minimize` primitives, operator application `linear`
(used to reconstruct residuals) and native subtraction. -/
structure Backend (V : Type) where
  name : String
  linear_solve : String → (V → V) → V → V → Rat → Rat → Nat → Bool → BackendRet V
  minimize : String → (V → V) → V → Rat → Nat → Bool → BackendRet V
  linear : (V → V) → V → V
  sub : V → V → V

/-- Modelled from the spec: the external tree (de)composition and tensor
utilities consumed by the dispatcher (`disassemble_tree` / `assemble_tree`
of `phi/math/_tensors.py` and tensor arithmetic, not in src).
`disassemble` lists the numeric components of a nested structure;
`reassemble` rebuilds a structure from the original nest and one component
(the dispatcher only ever reassembles single-component structures);
`sub` and `ofScalar` are tensor-level subtraction and scalar embedding. -/
structure TreeOps (V : Type) where
  disassemble : V → List V
  reassemble : V → V → V
  sub : V → V → V
  ofScalar : Rat → V

/-- Everything observable from one dispatcher run: the returned solution
`x`, the constructed `SolveInfo`, the updated active tapes, the number of
duplicate-record warnings and the list of convergence warnings emitted.
The Python function returns only `x`; the rest is observable through the
tapes and the warning machinery. -/
structure SolveOut (V : Type) where
  x : V
  result : SolveInfo V
  tapes : List (SolveTape V)
  dupWarns : Nat
  convWarns : List ExcKind

/-- The shared tail of `minimize` and `_linear_solve_forward` (source lines
369 to 372 and 563 to 566): record the result into every active tape, then
run the convergence check in the given mode, then return the solution. -/
def finish_solve (solve : Solve V) (trj : Bool) (result : SolveInfo V) (x : V)
    (tapes : List (SolveTape V)) (only_warn : Bool) : Except PyError (SolveOut V) :=
  match tapesAddAll tapes solve trj result with
  | .error e => .error e
  | .ok (tapes2, w) =>
    match result.convergence_check only_warn with
    | .error k => .error (.convergence k)
    | .ok ws =>
      .ok { x := x, result := result, tapes := tapes2, dupWarns := w, convWarns := ws }

/-- Substring helper: whether the pattern is a prefix of the character
list. -/
def charsPfx : List Char → List Char → Bool
  | [], _ => true
  | _ :: _, [] => false
  | a :: as, b :: bs => a == b && charsPfx as bs

/-- Substring helper: whether the pattern occurs anywhere in the character
list. -/
def charsContain (pat : List Char) : List Char → Bool
  | [] => pat.isEmpty
  | b :: bs => charsPfx pat (b :: bs) || charsContain pat bs

/-- The Python `in` operator on strings: substring containment (used for
`TensorFlow in backend.name`). -/
def strContains (pat s : String) : Bool :=
  charsContain pat.toList s.toList

/-- Result construction of `_linear_solve_forward` (source lines 538 to 562).
Without a trajectory: reassemble `x`, take the backend residual if present,
else reconstruct it by reapplying the operator when a tape is active, else
record no residual. With a trajectory: stack `x`, `residual` and
`function_evaluations` along the trajectory axis, but take `iterations`,
`converged` and `diverged` from the final step only. Returns the built
`SolveInfo` and the solution that the dispatcher will return. -/
def lsf_result (ops : TreeOps V) (backend : Backend V) (lin_op : V → V)
    (solve : Solve V) (y_tree y_native x0_tree : V) (tapesActive : Bool)
    (trj : Bool) (ret : BackendRet V) (t : Rat) :
    Except PyError (SolveInfo V × V) :=
  match trj, ret with
  | false, .single r =>
    let residual : Option (TrajVal V) :=
      match r.residual with
      | some res => some (.single (ops.reassemble y_tree res))
      | none =>
        if tapesActive then
          some (.single (ops.reassemble y_tree
            (backend.sub (backend.linear lin_op r.x) y_native)))
        else none
    let x := ops.reassemble x0_tree r.x
    .ok (mkSolveInfo solve (.single x) residual (.single r.iterations)
      (.single r.function_evaluations)
      { avail := r.conv_avail, vals := .single r.converged }
      { avail := r.div_avail, vals := .single r.diverged }
      r.method r.message t, x)
  | true, .traj rs =>
    match rs.getLast? with
    | none => .error .indexError
    | some last =>
      match rs.mapM (fun r => r.residual) with
      | none => .error (.assertion "trajectory step without residual")
      | some resids =>
        let x := ops.reassemble x0_tree last.x
        .ok (mkSolveInfo solve
          (.traj (rs.map (fun r => ops.reassemble x0_tree r.x)))
          (some (.traj (resids.map (fun res => ops.reassemble y_tree res))))
          (.single last.iterations)
          (.traj (rs.map (fun r => r.function_evaluations)))
          { avail := last.conv_avail, vals := .single last.converged }
          { avail := last.div_avail, vals := .single last.diverged }
          last.method last.message t, x)
  | _, _ => .error (.assertion "backend return does not match trajectory mode")

/-- The convergence-check mode of `_linear_solve_forward` (line 565): only
warn instead of raising exactly when this is a backward-pass invocation on a
backend whose name contains TensorFlow. -/
def lsf_warn_mode (is_backprop : Bool) (backend : Backend V) : Bool :=
  is_backprop && strContains "TensorFlow" backend.name

/-- `_linear_solve_forward` (source lines 512 to 566): preprocess `y`,
decompose `y` and `x0` into their single tensors, determine the trajectory
request from the active tapes, invoke the backend linear-solve primitive,
assemble the `SolveInfo`, record it into every active tape and run the
convergence check (lenient exactly in the backward-TensorFlow case), and
return the solution. -/
def linear_solve_forward (ops : TreeOps V) (backend : Backend V) (lin_op : V → V)
    (y : V) (solve : Solve V) (is_backprop : Bool) (tapes : List (SolveTape V))
    (t : Rat) : Except PyError (SolveOut V) :=
  let y1 := match solve.preprocess_y with
    | some p => p.fn y solve.preprocess_y_args
    | none => y
  match ops.disassemble y1 with
  | [y_tensor] =>
    match solve.x0 with
    | none => .error (.assertion "cannot unpack x0 tensors")
    | some x0t =>
      match ops.disassemble x0t with
      | [x0_tensor] =>
        let trj := tapes.any (fun tp => tp.record_trajectories)
        let ret := backend.linear_solve solve.method lin_op y_tensor x0_tensor
          solve.relative_tolerance solve.absolute_tolerance solve.max_iterations trj
        match lsf_result ops backend lin_op solve y1 y_tensor x0t
            (!tapes.isEmpty) trj ret t with
        | .error e => .error e
        | .ok (result, x) =>
          finish_solve solve trj result x tapes (lsf_warn_mode is_backprop backend)
      | _ => .error (.assertion "cannot unpack x0 tensors")
  | _ => .error (.assertion "cannot unpack y tensors")

/-- A user function together with its `__name__` (used in assertion
messages). -/
structure NamedFn (A B : Type) where
  name : String
  fn : A → B

/-- The `native_function` objective wrapper built inside `minimize` (source
lines 330 to 342): invoke the user function, decompose its output, require
the first output tensor to have no non-batch dimensions (failing with a
message naming the user function), require its batch dimensions to be
covered by the batch dimensions of the initial guess (again naming the user
function), then return the summed scalar loss and its native form. The
un-flattening of the argument is the identity here (external shape
algebra). -/
def native_function (disassemble : V → List V) (non_batch : V → List String)
    (batch_of : V → List String) (sumOf : V → Rat) (batch_dims : List String)
    (f : NamedFn V V) (x_flat : V) : Except PyError (Rat × V) :=
  let y := f.fn x_flat
  match disassemble y with
  | [] => .error .indexError
  | y0 :: _ =>
    if (non_batch y0).isEmpty then
      if (batch_of y0).all (fun d => d ∈ batch_dims) then
        .ok (sumOf y0, y0)
      else
        .error (.assertion ("Failed to minimize " ++ f.name ++
          " because its output loss has more batch dimensions than the initial guess"))
    else
      .error (.assertion ("Failed to minimize " ++ f.name ++
        " because it returned a non-scalar output. Reduce all non-batch dimensions, e.g. using math.l2_loss"))

/-- Result construction of `minimize` (source lines 350 to 368). Without a
trajectory the backend record is used directly; with a trajectory, `x`,
`residual` and `function_evaluations` are stacked along the trajectory axis
while `iterations`, `converged` and `diverged` are taken from the final step
only; the solution handed back is the final step in both cases. -/
def min_result (solve : Solve V) (trj : Bool) (ret : BackendRet V) (t : Rat) :
    Except PyError (SolveInfo V × V) :=
  match trj, ret with
  | false, .single r =>
    match r.residual with
    | none => .error (.assertion "backend minimize returned no residual")
    | some res =>
      .ok (mkSolveInfo solve (.single r.x) (some (.single res))
        (.single r.iterations) (.single r.function_evaluations)
        { avail := r.conv_avail, vals := .single r.converged }
        { avail := r.div_avail, vals := .single r.diverged }
        r.method r.message t, r.x)
  | true, .traj rs =>
    match rs.getLast? with
    | none => .error .indexError
    | some last =>
      match rs.mapM (fun r => r.residual) with
      | none => .error (.assertion "backend minimize returned no residual")
      | some resids =>
        .ok (mkSolveInfo solve (.traj (rs.map (fun r => r.x)))
          (some (.traj resids)) (.single last.iterations)
          (.traj (rs.map (fun r => r.function_evaluations)))
          { avail := last.conv_avail, vals := .single last.converged }
          { avail := last.div_avail, vals := .single last.diverged }
          last.method last.message t, last.x)
  | _, _ => .error (.assertion "backend return does not match trajectory mode")

/-- `minimize` (source lines 276 to 372): require a zero relative tolerance
and no `preprocess_y` (structural preconditions, checked before anything
else and independent of the suppression list), flatten the initial guess
(identity here), determine the trajectory request from the active tapes,
invoke the backend minimize primitive, assemble the result, record it into
every active tape and run the strict convergence check, and return the
solution. -/
def minimize_run (f : NamedFn V V) (solve : Solve V) (backend : Backend V)
    (tapes : List (SolveTape V)) (t : Rat) : Except PyError (SolveOut V) :=
  if solve.relative_tolerance ≠ 0 then
    .error (.assertion "relative_tolerance must be zero for minimize but got a nonzero value")
  else if solve.preprocess_y.isSome then
    .error (.assertion "minimize does not allow preprocess_y")
  else
    match solve.x0 with
    | none => .error (.assertion "minimize requires an initial guess")
    | some x0v =>
      let trj := tapes.any (fun tp => tp.record_trajectories)
      let ret := backend.minimize solve.method f.fn x0v solve.absolute_tolerance
        solve.max_iterations trj
      match min_result solve trj ret t with
      | .error e => .error e
      | .ok (result, x) => finish_solve solve trj result x tapes false

/-- `solve_nonlinear` (source lines 375 to 412): apply `preprocess_y` to `y`
when set (called with `y` alone there, without the extra arguments), form
the objective `l2_loss(f(x) - y)`, move the relative tolerance into the
absolute one scaled by `l2_loss(y)`, zero the relative tolerance, clear the
preprocess hook, and delegate to `minimize`. `l2` abstracts the external
`l2_loss` of `phi/math/_nd.py` (not in src). -/
def solve_nonlinear_run (ops : TreeOps V) (l2 : V → Rat) (f : V → V) (y : V)
    (solve : Solve V) (backend : Backend V) (tapes : List (SolveTape V))
    (t : Rat) : Except PyError (SolveOut V) :=
  let y1 := match solve.preprocess_y with
    | some p => p.fn y []
    | none => y
  let min_func : NamedFn V V :=
    { name := "min_func", fn := fun x => ops.ofScalar (l2 (ops.sub (f x) y1)) }
  let rel_tol_to_abs := solve.relative_tolerance * l2 y1
  let min_solve := ((solve.withAtol rel_tol_to_abs).withRtol 0).withPreY none
  minimize_run min_func min_solve backend tapes t

/-- Restatement of the spec sentence for `solveNonlinear` (section 4.4), to
be compared with the source embedding `solve_nonlinear_run`: apply
`preprocessY` to `y` if set, then minimize the squared-norm loss of
`f(x) - y` under a derived spec whose absolute tolerance is
`relativeTolerance * squaredNorm(y)`, whose relative tolerance is zero and
whose preprocess hook is cleared. -/
def solve_nonlinear_spec (ops : TreeOps V) (sqNorm : V → Rat) (f : V → V) (y : V)
    (solve : Solve V) (backend : Backend V) (tapes : List (SolveTape V))
    (t : Rat) : Except PyError (SolveOut V) :=
  let y2 := match solve.preprocess_y with
    | some p => p.fn y []
    | none => y
  let loss : NamedFn V V :=
    { name := "min_func", fn := fun x => ops.ofScalar (sqNorm (ops.sub (f x) y2)) }
  let derived := ((solve.withAtol (solve.relative_tolerance * sqNorm y2)).withRtol 0).withPreY none
  minimize_run loss derived backend tapes t

/-- `solve_linear` (source lines 415 to 509), matrix-free branch: decompose
`y` and `solve.x0`, require exactly one tensor component on each side
(structural precondition, before strategy selection and independent of the
suppression list), then dispatch the shared linear-solve core with the
function as operator. The matrix branch (lines 472 to 483) differs only in
preparing a backend-native matrix and bias through external sparse
utilities before calling the same core. -/
def solve_linear_run (ops : TreeOps V) (backend : Backend V) (f : V → V)
    (y : V) (solve : Solve V) (tapes : List (SolveTape V)) (t : Rat) :
    Except PyError (SolveOut V) :=
  let y_tensors := ops.disassemble y
  let x0_tensors := match solve.x0 with
    | none => []
    | some x0t => ops.disassemble x0t
  if x0_tensors.length = 1 ∧ y_tensors.length = 1 then
    linear_solve_forward ops backend f y solve false tapes t
  else
    .error (.assertion "Only single-tensor linear solves are currently supported")

/-- Modelled from the spec: the argument record `custom_gradient`
(`phi/math/_functional.py`, not in src) hands to the backward function:
the forward `solve` spec, the forward matrix when the forward pass was a
matrix solve, and the `is_backprop` control flag when present. -/
structure SolveKwargs (V M : Type) where
  solve : Solve V
  matrix : Option M
  is_backprop : Option Bool

/-- The backward function returns a dictionary assigning the computed
gradient to the forward input `y`. -/
structure GradReturn (V : Type) where
  y : V

/-- `implicit_gradient_solve` inside `attach_gradient_solve` (source lines
570 to 579): read the spec and optional matrix from the recorded arguments,
access `solve.gradient_solve` (creating and caching it on first access),
default its initial guess to `zeros_like(solve.x0)` when unset, access the
cached gradient solve again and copy it with that initial guess, delete the
`is_backprop` entry from the arguments, and re-run the same wrapped solver
on `dx` with the gradient spec, the forward matrix and `is_backprop=True`;
the result is returned as the gradient with respect to `y`. `swg` is the
wrapped solver (`solve_with_grad`), `zl` the external `zeros_like`, and the
updated parent spec is returned alongside to make the cache fill
observable. -/
def implicit_gradient_solve (swg : V → Solve V → Option M → SolveKwargs V M → Bool → V)
    (zl : V → V) (freshId : Nat) (kw : SolveKwargs V M) (x dx : V) :
    GradReturn V × Solve V :=
  let p := kw.solve.gradient_solve_get freshId
  let grad_solve := p.1
  let solve1 := p.2
  let x0 : Option V := match grad_solve.x0 with
    | some g => some g
    | none => kw.solve.x0.map zl
  let p2 := solve1.gradient_solve_get freshId
  let grad_solve2 := p2.1.withX0 x0
  let kw2 : SolveKwargs V M := { kw with is_backprop := none }
  ({ y := swg dx grad_solve2 kw.matrix kw2 true }, p2.2)

/-- C7: `Solve` equality compares method, both tolerances, the iteration
budget, the `preprocess_y` reference identity, the suppression list and
`x0`, and never the identity token: it is invariant under replacing the
identity tokens, two specs agreeing on the compared fields are equal even
with distinct ids and gradient caches, and replacing either tolerance by a
different value breaks equality. -/
theorem claim_C7_eq_ignores_id :
    (∀ (V : Type) [DecidableEq V] (a b : Solve V),
      Solve.eqPy a b = true ↔
        (a.method = b.method ∧ a.absolute_tolerance = b.absolute_tolerance ∧
         a.relative_tolerance = b.relative_tolerance ∧
         a.max_iterations = b.max_iterations ∧
         a.preprocess_y.map RefFn.fid = b.preprocess_y.map RefFn.fid ∧
         a.suppress = b.suppress ∧ a.x0 = b.x0)) ∧
    (∀ (V : Type) [DecidableEq V] (a b : Solve V) (i j : Nat),
      Solve.eqPy (a.withId i) (b.withId j) = Solve.eqPy a b) ∧
    (∀ (V : Type) [DecidableEq V] (m : String) (rt abst : Rat) (mi : Nat)
        (x : Option V) (sup : List ExcKind) (py : Option (RefFn V)) (pa1 pa2 : List V)
        (g1 g2 : Option (Solve V)) (i j : Nat),
      Solve.eqPy (.mk m rt abst mi x sup py pa1 g1 i) (.mk m rt abst mi x sup py pa2 g2 j) = true) ∧
    (∀ (V : Type) [DecidableEq V] (a : Solve V) (q : Rat),
      q ≠ a.absolute_tolerance → Solve.eqPy a (a.withAtol q) = false) ∧
    (∀ (V : Type) [DecidableEq V] (a : Solve V) (q : Rat),
      q ≠ a.relative_tolerance → Solve.eqPy a (a.withRtol q) = false) := by
  refine ⟨?_, ?_, ?_, ?_, ?_⟩
  · intro V _ a b
    cases a with | mk m1 rt1 at1 mi1 x1 s1 p1 pa1 g1 i1 =>
    cases b with | mk m2 rt2 at2 mi2 x2 s2 p2 pa2 g2 i2 =>
    unfold Solve.eqPy
    split
    · rename_i h
      simp only [Bool.false_eq_true, false_iff]
      simp only [Solve.method, Solve.relative_tolerance, Solve.absolute_tolerance,
        Solve.max_iterations, Solve.preprocess_y, Solve.suppress, Solve.x0] at h ⊢
      tauto
    · rename_i h
      push_neg at h
      simp only [Solve.method, Solve.relative_tolerance, Solve.absolute_tolerance,
        Solve.max_iterations, Solve.preprocess_y, Solve.suppress, Solve.x0,
        decide_eq_true_eq] at h ⊢
      tauto
  · intro V _ a b i j
    cases a with | mk m1 rt1 at1 mi1 x1 s1 p1 pa1 g1 i1 =>
    cases b with | mk m2 rt2 at2 mi2 x2 s2 p2 pa2 g2 i2 =>
    rfl
  · intro V _ m rt abst mi x sup py pa1 pa2 g1 g2 i j
    unfold Solve.eqPy
    split
    · rename_i h
      simp only [Solve.method, Solve.relative_tolerance, Solve.absolute_tolerance,
        Solve.max_iterations, Solve.preprocess_y, Solve.suppress] at h
      tauto
    · simp [Solve.x0]
  · intro V _ a q hq
    cases a with | mk m1 rt1 at1 mi1 x1 s1 p1 pa1 g1 i1 =>
    unfold Solve.eqPy
    split
    · rfl
    · rename_i h
      push_neg at h
      exact absurd h.2.1.symm (by simpa [Solve.absolute_tolerance, Solve.withAtol] using hq)
  · intro V _ a q hq
    cases a with | mk m1 rt1 at1 mi1 x1 s1 p1 pa1 g1 i1 =>
    unfold Solve.eqPy
    split
    · rfl
    · rename_i h
      push_neg at h
      exact absurd h.2.2.1.symm (by simpa [Solve.relative_tolerance, Solve.withRtol] using hq)

/-- Concrete spec used by the witness of C7. -/
def c7a : Solve Nat := .mk "CG" 0 1 10 (some 3) [ExcKind.diverged] none [] none 1

/-- Concrete spec equal to `c7a` in all compared fields but with a different
identity token and gradient cache. -/
def c7b : Solve Nat := .mk "CG" 0 1 10 (some 3) [ExcKind.diverged] none [] (some c7a) 2

/-- Witness for C7: two concretely built specs with identical compared
fields and distinct identity tokens compare equal, and replacing the
absolute tolerance by a different value breaks equality. -/
theorem claim_C7_witness :
    Solve.eqPy c7a c7b = true ∧
    ((5 : Rat) ≠ c7a.absolute_tolerance ∧ Solve.eqPy c7a (c7a.withAtol 5) = false) := by
  refine ⟨?_, by decide, ?_⟩
  · exact claim_C7_eq_ignores_id.2.2.1 Nat "CG" 0 1 10 (some 3) [ExcKind.diverged]
      none [] [] none (some c7a) 1 2
  · exact claim_C7_eq_ignores_id.2.2.2.1 Nat c7a 5 (by decide)

/-- C6: when the gradient-solve cache is unset, the first read builds and
caches a new spec sharing method, tolerances, iteration budget, suppression
list and preprocess hook with its arguments, with `x0 = none` and the fresh
identity token (distinct from the parent by freshness of uuids); the parent
is mutated only in its cache field, and every subsequent read returns the
same cached object without further mutation. -/
theorem claim_C6_gradient_solve_lazy (V : Type) (s : Solve V) (freshId laterId : Nat)
    (hunset : s.gradient_solve_cache = none) (hfresh : freshId ≠ s.id) :
    ∃ g : Solve V,
      s.gradient_solve_get freshId = (g, s.withGrad (some g)) ∧
      g.method = s.method ∧ g.relative_tolerance = s.relative_tolerance ∧
      g.absolute_tolerance = s.absolute_tolerance ∧
      g.max_iterations = s.max_iterations ∧ g.suppress = s.suppress ∧
      g.preprocess_y = s.preprocess_y ∧ g.preprocess_y_args = s.preprocess_y_args ∧
      g.x0 = none ∧ g.gradient_solve_cache = none ∧
      g.id = freshId ∧ g.id ≠ s.id ∧
      (s.withGrad (some g)).method = s.method ∧
      (s.withGrad (some g)).x0 = s.x0 ∧
      (s.withGrad (some g)).id = s.id ∧
      (s.withGrad (some g)).gradient_solve_get laterId = (g, s.withGrad (some g)) := by
  refine ⟨Solve.mk s.method s.relative_tolerance s.absolute_tolerance
    s.max_iterations none s.suppress s.preprocess_y s.preprocess_y_args none freshId,
    ?_, ?_⟩
  · unfold Solve.gradient_solve_get
    rw [hunset]
  · cases s with | mk m rt abst mi x sup py pya g i =>
    simp only [Solve.method, Solve.relative_tolerance, Solve.absolute_tolerance,
      Solve.max_iterations, Solve.suppress, Solve.preprocess_y,
      Solve.preprocess_y_args, Solve.x0, Solve.gradient_solve_cache, Solve.id,
      Solve.withGrad, Solve.gradient_solve_get]
    simp only [Solve.id] at hfresh
    simp [hfresh]

/-- Concrete spec used by the witness of C6. -/
def c6s : Solve Nat := .mk "biCG" 1 2 30 (some 8) [] (some ⟨4, fun v _ => v⟩) [9] none 3

/-- Witness for C6: the lazily created gradient spec of a concrete parent
shares the compared fields, has no initial guess and carries the fresh
identity token. -/
theorem claim_C6_witness :
    c6s.gradient_solve_cache = none ∧ (7 : Nat) ≠ c6s.id ∧
    ∃ g : Solve Nat,
      c6s.gradient_solve_get 7 = (g, c6s.withGrad (some g)) ∧
      g.method = c6s.method ∧ g.relative_tolerance = c6s.relative_tolerance ∧
      g.absolute_tolerance = c6s.absolute_tolerance ∧
      g.max_iterations = c6s.max_iterations ∧ g.suppress = c6s.suppress ∧
      g.preprocess_y = c6s.preprocess_y ∧ g.preprocess_y_args = c6s.preprocess_y_args ∧
      g.x0 = none ∧ g.gradient_solve_cache = none ∧
      g.id = 7 ∧ g.id ≠ c6s.id ∧
      (c6s.withGrad (some g)).method = c6s.method ∧
      (c6s.withGrad (some g)).x0 = c6s.x0 ∧
      (c6s.withGrad (some g)).id = c6s.id ∧
      (c6s.withGrad (some g)).gradient_solve_get 11 = (g, c6s.withGrad (some g)) := by
  refine ⟨rfl, by decide, ?_⟩
  exact claim_C6_gradient_solve_lazy Nat c6s 7 11 rfl (by decide)

/-- C10: in `convergence_check` the divergence and non-convergence branches
run independently in sequence: when the result has diverged but `Diverged`
is suppressed, a failing final convergence flag with `NotConverged` not
suppressed still raises `NotConverged` in strict mode, and still warns
(exactly the `NotConverged` warning) in lenient mode. -/
theorem claim_C10_checks_independent (V : Type) (info : SolveInfo V)
    (hda : info.diverged.avail = true) (hca : info.converged.avail = true)
    (hdany : info.diverged.anyTrue = true)
    (hdsup : ExcKind.diverged ∈ info.solve.suppress)
    (hclast : info.converged.lastAll = false)
    (hnsup : ExcKind.notConverged ∉ info.solve.suppress) :
    info.convergence_check false = .error ExcKind.notConverged ∧
    info.convergence_check true = .ok [ExcKind.notConverged] := by
  unfold SolveInfo.convergence_check
  simp [hda, hca, hdany, hdsup, hclast, hnsup]

/-- Concrete result used by the witness of C10: diverged with `Diverged`
suppressed, final step not converged with `NotConverged` not suppressed. -/
def c10info : SolveInfo Nat :=
  mkSolveInfo (.mk "CG" 0 0 5 (some 0) [ExcKind.diverged] none [] none 21)
    (.single 4) none (.single 5) (.single 5)
    { avail := true, vals := .single [false] }
    { avail := true, vals := .single [true] }
    "CG" "stopped" 0

/-- Witness for C10: the concrete diverged-but-suppressed, non-converged
result raises `NotConverged` in strict mode and warns it in lenient mode. -/
theorem claim_C10_witness :
    c10info.diverged.avail = true ∧ c10info.converged.avail = true ∧
    c10info.diverged.anyTrue = true ∧
    ExcKind.diverged ∈ c10info.solve.suppress ∧
    c10info.converged.lastAll = false ∧
    ExcKind.notConverged ∉ c10info.solve.suppress ∧
    c10info.convergence_check false = .error ExcKind.notConverged ∧
    c10info.convergence_check true = .ok [ExcKind.notConverged] := by
  have h := claim_C10_checks_independent Nat c10info rfl rfl rfl
    (by decide) rfl (by decide)
  exact ⟨rfl, rfl, rfl, by decide, rfl, by decide, h.1, h.2⟩

/-- Spec used by the C1 evidence: the id token 42 stands for a manually
forced duplicate spec identity. -/
def c1solve : Solve Nat := .mk "CG" 0 0 1000 (some 0) [] none [] none 42

/-- First recorded result for the duplicated spec identity. -/
def c1res1 : SolveInfo Nat :=
  mkSolveInfo c1solve (.single 1) none (.single 2) (.single 2)
    { avail := true, vals := .single [true] }
    { avail := true, vals := .single [false] } "CG" "first" 0

/-- Second recorded result for the duplicated spec identity. -/
def c1res2 : SolveInfo Nat :=
  mkSolveInfo c1solve (.single 7) none (.single 3) (.single 3)
    { avail := true, vals := .single [true] }
    { avail := true, vals := .single [false] } "CG" "second" 0

/-- Tape state after recording the first result. -/
def c1tape1 : SolveTape Nat := { record_trajectories := false, solves := [c1res1], solve_ids := [42] }

/-- Tape state after recording both results. -/
def c1tape2 : SolveTape Nat :=
  { record_trajectories := false, solves := [c1res1, c1res2], solve_ids := [42, 42] }

/-- C1 evidence: recording a second result under the same spec id raises no
error and emits exactly one non-fatal warning, and the indexed lookup
`tape[0]` returns the first recorded result — but the spec-keyed lookup
`tape[solve]` fails the internal `assert len(solves) == 1` instead of
returning the first stored result, contradicting both the claim and the
warning message the recording itself emits. -/
theorem claim_C1_duplicate_lookup_bug :
    (SolveTape.add { record_trajectories := false, solves := [], solve_ids := [] }
      c1solve false c1res1 = .ok (c1tape1, 0)) ∧
    c1tape1.add c1solve false c1res2 = .ok (c1tape2, 1) ∧
    c1tape2.getByIndex 0 = some c1res1 ∧
    c1tape2.getBySolve c1solve = .error (.assertion "len(solves) == 1") := by
  refine ⟨rfl, rfl, rfl, rfl⟩

/-- C5: `solve_nonlinear` coincides with the spec description: it applies
the preprocess hook to `y` when set and minimizes the squared-norm loss of
`f(x) - y` under the derived spec, and the derived spec has absolute
tolerance `relativeTolerance * squaredNorm(y)`, zero relative tolerance, a
cleared preprocess hook and all remaining fields of the original spec. -/
theorem claim_C5_nonlinear_reduction (V : Type) (ops : TreeOps V) (l2 : V → Rat)
    (f : V → V) (y : V) (solve : Solve V) (backend : Backend V)
    (tapes : List (SolveTape V)) (t : Rat) :
    solve_nonlinear_run ops l2 f y solve backend tapes t =
      solve_nonlinear_spec ops l2 f y solve backend tapes t ∧
    (let y1 := match solve.preprocess_y with
      | some p => p.fn y []
      | none => y
     let derived := ((solve.withAtol (solve.relative_tolerance * l2 y1)).withRtol 0).withPreY none
     solve_nonlinear_run ops l2 f y solve backend tapes t =
       minimize_run { name := "min_func", fn := fun x => ops.ofScalar (l2 (ops.sub (f x) y1)) }
         derived backend tapes t ∧
     derived.absolute_tolerance = solve.relative_tolerance * l2 y1 ∧
     derived.relative_tolerance = 0 ∧ derived.preprocess_y = none ∧
     derived.method = solve.method ∧ derived.max_iterations = solve.max_iterations ∧
     derived.suppress = solve.suppress ∧ derived.x0 = solve.x0 ∧
     derived.preprocess_y_args = solve.preprocess_y_args) := by
  cases solve with | mk m rt abst mi x sup py pya g i =>
  cases py with
  | none =>
    exact ⟨rfl, rfl, rfl, rfl, rfl, rfl, rfl, rfl, rfl, rfl⟩
  | some p =>
    exact ⟨rfl, rfl, rfl, rfl, rfl, rfl, rfl, rfl, rfl, rfl⟩

/-- Replacing the gradient-solve cache stores exactly the given value. -/
theorem withGrad_cache (s : Solve V) (g : Option (Solve V)) :
    (s.withGrad g).gradient_solve_cache = g := by
  cases s
  rfl

/-- A second access to the gradient-solve property returns the value cached
by the first access and leaves the spec unchanged. -/
theorem gradient_solve_get_idem (s : Solve V) (i j : Nat) :
    ((s.gradient_solve_get i).2).gradient_solve_get j =
      ((s.gradient_solve_get i).1, (s.gradient_solve_get i).2) := by
  cases hg : s.gradient_solve_cache with
  | some g =>
    unfold Solve.gradient_solve_get
    simp [hg]
  | none =>
    unfold Solve.gradient_solve_get
    simp [hg, withGrad_cache]

/-- C4: the backward pass of a differentiated solve, given the upstream
gradient `dx`, accesses the spec's gradient solve (building and caching it
if needed), takes its initial guess when set and otherwise a zero-filled
structure matching the forward initial guess, and re-runs the same wrapped
solver on target `dx` with that gradient spec, the forward matrix (present
exactly when the forward pass was a matrix solve), the recorded arguments
with the `is_backprop` entry removed, and the backward-pass mark set; the
solver's output is returned as the gradient with respect to `y`. -/
theorem claim_C4_backward_pass (V M : Type)
    (swg : V → Solve V → Option M → SolveKwargs V M → Bool → V)
    (zl : V → V) (freshId : Nat) (kw : SolveKwargs V M) (x dx : V) (x0f : V)
    (hx0 : kw.solve.x0 = some x0f) :
    implicit_gradient_solve swg zl freshId kw x dx =
      ({ y := swg dx
           (((kw.solve.gradient_solve_get freshId).1).withX0
             (some (match ((kw.solve.gradient_solve_get freshId).1).x0 with
               | some g => g
               | none => zl x0f)))
           kw.matrix { kw with is_backprop := none } true },
       (kw.solve.gradient_solve_get freshId).2) := by
  simp only [implicit_gradient_solve]
  rw [gradient_solve_get_idem]
  cases hgx : ((kw.solve.gradient_solve_get freshId).1).x0 with
  | some g => simp [hgx]
  | none => simp [hgx, hx0]

/-- Concrete recorded arguments for the witness of C4: a spec with an
uncached gradient solve, a forward matrix, and a stale forward
`is_backprop` entry. -/
def c4kw : SolveKwargs Nat Nat :=
  { solve := .mk "CG" 0 1 50 (some 6) [] none [] none 13,
    matrix := some 3, is_backprop := some false }

/-- Concrete wrapped solver for the witness of C4. -/
def c4swg : Nat → Solve Nat → Option Nat → SolveKwargs Nat Nat → Bool → Nat :=
  fun dx s m _ b => dx + s.id + m.getD 0 + (if b then 100 else 0)

/-- Witness for C4: the backward pass at concrete inputs re-runs the wrapped
solver on the upstream gradient with the cached gradient spec (zero-filled
initial guess), the forward matrix, the cleaned arguments and the
backward-pass mark. -/
theorem claim_C4_witness :
    c4kw.solve.x0 = some 6 ∧
    implicit_gradient_solve c4swg (fun _ => 0) 77 c4kw 5 4 =
      ({ y := c4swg 4
           (((c4kw.solve.gradient_solve_get 77).1).withX0
             (some (match ((c4kw.solve.gradient_solve_get 77).1).x0 with
               | some g => g
               | none => (fun (_ : Nat) => 0) 6)))
           c4kw.matrix { c4kw with is_backprop := none } true },
       (c4kw.solve.gradient_solve_get 77).2) := by
  exact ⟨rfl, claim_C4_backward_pass Nat Nat c4swg (fun _ => 0) 77 c4kw 5 4 6 rfl⟩

/-- Behaviour of the convergence check when both flags are concretely
available: an unsuppressed divergence raises in strict mode and warns in
lenient mode; without divergence, an unsuppressed failing final convergence
flag raises `NotConverged` in strict mode and warns it in lenient mode. -/
theorem convergence_check_cases (info : SolveInfo V)
    (hda : info.diverged.avail = true) (hca : info.converged.avail = true) :
    (info.diverged.anyTrue = true → ExcKind.diverged ∉ info.solve.suppress →
      (info.convergence_check false = .error ExcKind.diverged) ∧
      (∃ ws, info.convergence_check true = .ok ws ∧ ExcKind.diverged ∈ ws)) ∧
    (info.diverged.anyTrue = false → info.converged.lastAll = false →
      ExcKind.notConverged ∉ info.solve.suppress →
      (info.convergence_check false = .error ExcKind.notConverged) ∧
      (info.convergence_check true = .ok [ExcKind.notConverged])) := by
  unfold SolveInfo.convergence_check
  constructor
  · intro h1 h2
    constructor
    · simp [hda, hca, h1, h2]
    · by_cases h3 : info.converged.lastAll
      · exact ⟨[ExcKind.diverged], by simp [hda, hca, h1, h2, h3], by simp⟩
      · by_cases h4 : ExcKind.notConverged ∈ info.solve.suppress
        · exact ⟨[ExcKind.diverged], by simp [hda, hca, h1, h2, h3, h4], by simp⟩
        · exact ⟨[ExcKind.diverged, ExcKind.notConverged],
            by simp [hda, hca, h1, h2, h3, h4], by simp⟩
  · intro h1 h2 h3
    refine ⟨by simp [hda, hca, h1, h2, h3], by simp [hda, hca, h1, h2, h3]⟩

/-- C2: for a linear solve whose backend result has concretely available
convergence flags, an unsuppressed convergence failure raises the
corresponding exception exactly when the check mode
`is_backprop and TensorFlow in backend.name` is off; when that mode is on
(a backward-pass invocation on a backend of the TensorFlow family) the
failure is downgraded to a warning and the call returns normally. -/
theorem claim_C2_backward_tf_leniency (V : Type) (ops : TreeOps V)
    (backend : Backend V) (lin_op : V → V) (y : V) (solve : Solve V)
    (is_backprop : Bool) (t : Rat) (x0t y_tensor x0_tensor : V)
    (r : NativeSolveResult V)
    (hpre : solve.preprocess_y = none)
    (hx0 : solve.x0 = some x0t)
    (hdy : ops.disassemble y = [y_tensor])
    (hdx : ops.disassemble x0t = [x0_tensor])
    (hret : backend.linear_solve solve.method lin_op y_tensor x0_tensor
      solve.relative_tolerance solve.absolute_tolerance solve.max_iterations false
        = .single r)
    (hca : r.conv_avail = true) (hda : r.div_avail = true) :
    lsf_warn_mode is_backprop backend = (is_backprop && strContains "TensorFlow" backend.name) ∧
    (r.diverged.any id = true → ExcKind.diverged ∉ solve.suppress →
      ((lsf_warn_mode is_backprop backend = false →
        linear_solve_forward ops backend lin_op y solve is_backprop [] t =
          .error (.convergence ExcKind.diverged)) ∧
       (lsf_warn_mode is_backprop backend = true →
        ∃ out, linear_solve_forward ops backend lin_op y solve is_backprop [] t = .ok out ∧
          ExcKind.diverged ∈ out.convWarns))) ∧
    (r.diverged.any id = false → r.converged.all id = false →
      ExcKind.notConverged ∉ solve.suppress →
      ((lsf_warn_mode is_backprop backend = false →
        linear_solve_forward ops backend lin_op y solve is_backprop [] t =
          .error (.convergence ExcKind.notConverged)) ∧
       (lsf_warn_mode is_backprop backend = true →
        ∃ out, linear_solve_forward ops backend lin_op y solve is_backprop [] t = .ok out ∧
          ExcKind.notConverged ∈ out.convWarns))) := by
  have hres : lsf_result ops backend lin_op solve y y_tensor x0t false false (.single r) t =
      .ok (mkSolveInfo solve (.single (ops.reassemble x0t r.x))
        (match r.residual with
         | some res => some (.single (ops.reassemble y res))
         | none => none)
        (.single r.iterations) (.single r.function_evaluations)
        { avail := r.conv_avail, vals := .single r.converged }
        { avail := r.div_avail, vals := .single r.diverged }
        r.method r.message t, ops.reassemble x0t r.x) := by
    cases hrr : r.residual <;> simp [lsf_result, hrr]
  set R := mkSolveInfo solve (.single (ops.reassemble x0t r.x))
      (match r.residual with
       | some res => some (.single (ops.reassemble y res))
       | none => none)
      (.single r.iterations) (.single r.function_evaluations)
      { avail := r.conv_avail, vals := .single r.converged }
      { avail := r.div_avail, vals := .single r.diverged }
      r.method r.message t with hRdef
  have hRsolve : R.solve = solve := rfl
  have hRda : R.diverged.avail = true := hda
  have hRca : R.converged.avail = true := hca
  have hRany : R.diverged.anyTrue = r.diverged.any id := rfl
  have hRlast : R.converged.lastAll = r.converged.all id := rfl
  have hforward : linear_solve_forward ops backend lin_op y solve is_backprop [] t =
      (match R.convergence_check (lsf_warn_mode is_backprop backend) with
       | .error k => .error (.convergence k)
       | .ok ws =>
         .ok { x := ops.reassemble x0t r.x, result := R, tapes := [], dupWarns := 0,
               convWarns := ws }) := by
    simp only [linear_solve_forward, hpre, hdy, hx0, hdx, List.any_nil,
      List.isEmpty_nil, Bool.not_true]
    rw [hret, hres]
    simp [finish_solve, tapesAddAll]
  have hcc := convergence_check_cases R hRda hRca
  refine ⟨rfl, ?_, ?_⟩
  · intro h1 h2
    have hc := hcc.1 (by rw [hRany]; exact h1) (by rw [hRsolve]; exact h2)
    constructor
    · intro hmode
      rw [hforward, hmode, hc.1]
    · intro hmode
      obtain ⟨ws, hws, hmem⟩ := hc.2
      rw [hforward, hmode, hws]
      exact ⟨_, rfl, hmem⟩
  · intro h1 h2 h3
    have hc := hcc.2 (by rw [hRany]; exact h1) (by rw [hRlast]; exact h2)
      (by rw [hRsolve]; exact h3)
    constructor
    · intro hmode
      rw [hforward, hmode, hc.1]
    · intro hmode
      rw [hforward, hmode, hc.2]
      exact ⟨_, rfl, by simp⟩

/-- Concrete tree operations for witnesses: single-tensor values. -/
def c2ops : TreeOps Nat :=
  { disassemble := fun v => [v], reassemble := fun _ t => t,
    sub := fun a b => a - b, ofScalar := fun _ => 0 }

/-- Concrete diverged backend result for the witness of C2. -/
def c2r : NativeSolveResult Nat :=
  { x := 9, residual := some 1, iterations := 3, function_evaluations := 3,
    converged := [false], diverged := [true], conv_avail := true,
    div_avail := true, method := "CG", message := "diverged" }

/-- Concrete backend of the TensorFlow family for the witness of C2. -/
def c2backend : Backend Nat :=
  { name := "TensorFlow", linear_solve := fun _ _ _ _ _ _ _ _ => .single c2r,
    minimize := fun _ _ _ _ _ _ => .single c2r, linear := fun f v => f v,
    sub := fun a b => a - b }

/-- Concrete spec for the witness of C2 (nothing suppressed). -/
def c2solve : Solve Nat := .mk "CG" 0 0 100 (some 0) [] none [] none 3

/-- Witness for C2: a concretely diverged, unsuppressed backward-pass linear
solve on a TensorFlow-named backend returns normally with the divergence
downgraded to a warning. -/
theorem claim_C2_witness :
    c2solve.preprocess_y = none ∧ c2solve.x0 = some 0 ∧
    c2ops.disassemble 5 = [5] ∧ c2ops.disassemble 0 = [0] ∧
    c2backend.linear_solve c2solve.method (fun v => v) 5 0 c2solve.relative_tolerance
      c2solve.absolute_tolerance c2solve.max_iterations false = .single c2r ∧
    c2r.conv_avail = true ∧ c2r.div_avail = true ∧
    c2r.diverged.any id = true ∧ ExcKind.diverged ∉ c2solve.suppress ∧
    lsf_warn_mode true c2backend = true ∧
    ∃ out, linear_solve_forward c2ops c2backend (fun v => v) 5 c2solve true [] 0 = .ok out ∧
      ExcKind.diverged ∈ out.convWarns := by
  refine ⟨rfl, rfl, rfl, rfl, rfl, rfl, rfl, rfl, by decide, by decide, ?_⟩
  exact ((claim_C2_backward_tf_leniency Nat c2ops c2backend (fun v => v) 5 c2solve true 0
    0 5 0 c2r rfl rfl rfl rfl rfl rfl rfl).2.1 rfl (by decide)).2 (by decide)

/-- Recording a result into non-trajectory tapes never fails. -/
theorem tapesAddAll_no_traj (s : Solve V) (r : SolveInfo V)
    (tapes : List (SolveTape V)) :
    tapes.any (fun tp => tp.record_trajectories) = false →
    ∃ p, tapesAddAll tapes s false r = .ok p := by
  induction tapes with
  | nil => exact fun _ => ⟨([], 0), rfl⟩
  | cons t rest ih =>
    intro h
    rw [List.any_cons, Bool.or_eq_false_iff] at h
    obtain ⟨p, hp⟩ := ih h.2
    have hadd : t.add s false r =
        .ok ({ t with solves := t.solves ++ [r], solve_ids := t.solve_ids ++ [s.id] },
          if t.solves.any (fun si => si.solve.id == s.id) then 1 else 0) := by
      simp [SolveTape.add, h.1]
    refine ⟨({ t with solves := t.solves ++ [r], solve_ids := t.solve_ids ++ [s.id] } :: p.1,
      (if t.solves.any (fun si => si.solve.id == s.id) then 1 else 0) + p.2), ?_⟩
    simp only [tapesAddAll, hadd, hp]

/-- When every failure indicated by available flags is suppressed, the
convergence check returns normally in either mode. -/
theorem convergence_check_ok_of_suppressed (info : SolveInfo V) (mode : Bool)
    (h1 : info.diverged.anyTrue = true → ExcKind.diverged ∈ info.solve.suppress)
    (h2 : info.converged.lastAll = false → ExcKind.notConverged ∈ info.solve.suppress) :
    ∃ ws, info.convergence_check mode = .ok ws := by
  unfold SolveInfo.convergence_check
  by_cases hav : info.diverged.avail && info.converged.avail
  · simp only [hav, if_true]
    by_cases hd : info.diverged.anyTrue
    · by_cases hc : info.converged.lastAll
      · exact ⟨[], by simp [hd, h1 hd, hc]⟩
      · exact ⟨[], by simp [hd, h1 hd, hc, h2 (by simpa using hc)]⟩
    · by_cases hc : info.converged.lastAll
      · exact ⟨[], by simp [hd, hc]⟩
      · exact ⟨[], by simp [hd, hc, h2 (by simpa using hc)]⟩
  · simp [hav]

/-- C8: when every convergence-failure kind indicated by the backend flags
is listed in the suppression set, the dispatcher returns the partial
result's solution without raising: `minimize` returns the backend's
reported iterate, and the linear-solve core returns the reassembled backend
iterate, in both cases with a normal return. -/
theorem claim_C8_suppressed_returns_x (V : Type) :
    (∀ (f : NamedFn V V) (solve : Solve V) (backend : Backend V)
        (tapes : List (SolveTape V)) (t : Rat) (x0v : V)
        (r : NativeSolveResult V) (res : V),
      solve.relative_tolerance = 0 → solve.preprocess_y = none →
      solve.x0 = some x0v →
      tapes.any (fun tp => tp.record_trajectories) = false →
      backend.minimize solve.method f.fn x0v solve.absolute_tolerance
        solve.max_iterations false = .single r →
      r.residual = some res →
      (r.diverged.any id = true → ExcKind.diverged ∈ solve.suppress) →
      (r.converged.all id = false → ExcKind.notConverged ∈ solve.suppress) →
      ∃ out, minimize_run f solve backend tapes t = .ok out ∧ out.x = r.x) ∧
    (∀ (ops : TreeOps V) (backend : Backend V) (lin_op : V → V) (y : V)
        (solve : Solve V) (is_backprop : Bool) (tapes : List (SolveTape V))
        (t : Rat) (x0t y_tensor x0_tensor : V) (r : NativeSolveResult V),
      solve.preprocess_y = none → solve.x0 = some x0t →
      ops.disassemble y = [y_tensor] → ops.disassemble x0t = [x0_tensor] →
      tapes.any (fun tp => tp.record_trajectories) = false →
      backend.linear_solve solve.method lin_op y_tensor x0_tensor
        solve.relative_tolerance solve.absolute_tolerance solve.max_iterations false
          = .single r →
      (r.diverged.any id = true → ExcKind.diverged ∈ solve.suppress) →
      (r.converged.all id = false → ExcKind.notConverged ∈ solve.suppress) →
      ∃ out, linear_solve_forward ops backend lin_op y solve is_backprop tapes t = .ok out ∧
        out.x = ops.reassemble x0t r.x) := by
  constructor
  · intro f solve backend tapes t x0v r res hrt hpre hx0 htr hret hresid hd hc
    have hmr : min_result solve false (.single r) t =
        .ok (mkSolveInfo solve (.single r.x) (some (.single res)) (.single r.iterations)
          (.single r.function_evaluations)
          { avail := r.conv_avail, vals := .single r.converged }
          { avail := r.div_avail, vals := .single r.diverged }
          r.method r.message t, r.x) := by
      simp [min_result, hresid]
    set R := mkSolveInfo solve (.single r.x) (some (.single res)) (.single r.iterations)
      (.single r.function_evaluations)
      { avail := r.conv_avail, vals := .single r.converged }
      { avail := r.div_avail, vals := .single r.diverged }
      r.method r.message t with hRdef
    have hrun : minimize_run f solve backend tapes t = finish_solve solve false R r.x tapes false := by
      simp only [minimize_run, hrt, hpre, hx0, htr, ne_eq, not_true_eq_false,
        Option.isSome_none, Bool.false_eq_true, if_false]
      rw [hret, hmr]
    obtain ⟨⟨tp, w⟩, hp⟩ := tapesAddAll_no_traj solve R tapes htr
    obtain ⟨ws, hws⟩ := convergence_check_ok_of_suppressed R false
      (fun h => hd h) (fun h => hc h)
    refine ⟨⟨r.x, R, tp, w, ws⟩, ?_, rfl⟩
    rw [hrun]
    simp only [finish_solve, hp, hws]
  · intro ops backend lin_op y solve is_backprop tapes t x0t y_tensor x0_tensor r
      hpre hx0 hdy hdx htr hret hd hc
    have hres : lsf_result ops backend lin_op solve y y_tensor x0t (!tapes.isEmpty)
        false (.single r) t =
        .ok (mkSolveInfo solve (.single (ops.reassemble x0t r.x))
          (match r.residual with
           | some res => some (.single (ops.reassemble y res))
           | none =>
             if (!tapes.isEmpty) then
               some (.single (ops.reassemble y
                 (backend.sub (backend.linear lin_op r.x) y_tensor)))
             else none)
          (.single r.iterations) (.single r.function_evaluations)
          { avail := r.conv_avail, vals := .single r.converged }
          { avail := r.div_avail, vals := .single r.diverged }
          r.method r.message t, ops.reassemble x0t r.x) := by
      cases hrr : r.residual <;> simp [lsf_result, hrr]
    set R := mkSolveInfo solve (.single (ops.reassemble x0t r.x))
      (match r.residual with
       | some res => some (.single (ops.reassemble y res))
       | none =>
         if (!tapes.isEmpty) then
           some (.single (ops.reassemble y
             (backend.sub (backend.linear lin_op r.x) y_tensor)))
         else none)
      (.single r.iterations) (.single r.function_evaluations)
      { avail := r.conv_avail, vals := .single r.converged }
      { avail := r.div_avail, vals := .single r.diverged }
      r.method r.message t with hRdef
    have hrun : linear_solve_forward ops backend lin_op y solve is_backprop tapes t =
        finish_solve solve false R (ops.reassemble x0t r.x) tapes
          (lsf_warn_mode is_backprop backend) := by
      simp only [linear_solve_forward, hpre, hdy, hx0, hdx, htr]
      rw [hret, hres]
    obtain ⟨⟨tp, w⟩, hp⟩ := tapesAddAll_no_traj solve R tapes htr
    obtain ⟨ws, hws⟩ := convergence_check_ok_of_suppressed R
      (lsf_warn_mode is_backprop backend) (fun h => hd h) (fun h => hc h)
    refine ⟨⟨ops.reassemble x0t r.x, R, tp, w, ws⟩, ?_, rfl⟩
    rw [hrun]
    simp only [finish_solve, hp, hws]

/-- The auto-generated termination message is never the empty string. -/
theorem autoMsg_ne_empty (d c : FlagTensor) (m : String) : autoMsg d c m ≠ "" := by
  unfold autoMsg
  split
  · intro h
    have := congrArg String.length h
    simp [String.length_append] at this
    exact absurd this.2 (by decide)
  · split
    · intro h
      have := congrArg String.length h
      simp [String.length_append] at this
      exact absurd this.2 (by decide)
    · intro h
      have := congrArg String.length h
      simp [String.length_append] at this
      exact absurd this.2 (by decide)

/-- A constructed result with an empty message has non-available flags: the
constructor fills the message from available flags, and the auto message is
never empty. -/
theorem mkSolveInfo_msg_empty (solve : Solve V) (x : TrajVal V)
    (residual : Option (TrajVal V)) (it fe : TrajVal Nat) (conv div : FlagTensor)
    (method msg : String) (t : Rat)
    (h : (mkSolveInfo solve x residual it fe conv div method msg t).msg = "") :
    ¬(div.avail = true ∧ conv.avail = true) := by
  intro hav
  unfold mkSolveInfo at h
  by_cases hm : msg = ""
  · simp only [hm, hav.1, hav.2, and_self, if_true, true_and] at h
    exact autoMsg_ne_empty div conv method h
  · simp only [hm, false_and, if_false] at h

/-- Trajectory slicing always yields a trajectory-free value. -/
theorem atIdx_isTraj (v : TrajVal α) (i : Int) (w : TrajVal α)
    (h : v.atIdx i = some w) : w.isTraj = false := by
  cases v with
  | single a =>
    simp [TrajVal.atIdx] at h
    subst h
    rfl
  | traj vs =>
    simp [TrajVal.atIdx] at h
    obtain ⟨a, _, h2⟩ := h
    subst h2
    rfl

/-- Trajectory slicing of a flag tensor keeps its availability. -/
theorem FlagTensor.atIdx_avail (f : FlagTensor) (i : Int) (g : FlagTensor)
    (h : f.atIdx i = some g) : g.avail = f.avail := by
  unfold FlagTensor.atIdx at h
  cases hv : f.vals.atIdx i with
  | none => rw [hv] at h; cases h
  | some w => rw [hv] at h; cases h; rfl

/-- A flag tensor without a trajectory axis slices to itself. -/
theorem FlagTensor.atIdx_single (a : Bool) (bs : List Bool) (i : Int) :
    FlagTensor.atIdx { avail := a, vals := .single bs } i =
      some { avail := a, vals := .single bs } := rfl

/-- What `snapshot` does, on any result on which it succeeds: the spec,
method and solve time pass through unchanged, the message passes through
whenever it is non-empty or the flags are not available, and every tracked
field is its `trajectory[index]` slice, hence trajectory-free. -/
theorem snapshot_preserves (info : SolveInfo V) (i : Int) (info2 : SolveInfo V)
    (hsnap : info.snapshot i = some info2)
    (hmsg : info.msg = "" → ¬(info.diverged.avail = true ∧ info.converged.avail = true)) :
    info2.solve = info.solve ∧ info2.method = info.method ∧
    info2.solve_time = info.solve_time ∧ info2.msg = info.msg ∧
    info.x.atIdx i = some info2.x ∧
    (∃ rT r2, info.residual = some rT ∧ rT.atIdx i = some r2 ∧
      info2.residual = some r2 ∧ r2.isTraj = false) ∧
    info.iterations.atIdx i = some info2.iterations ∧
    info.function_evaluations.atIdx i = some info2.function_evaluations ∧
    info.converged.atIdx i = some info2.converged ∧
    info.diverged.atIdx i = some info2.diverged ∧
    info2.x.isTraj = false ∧ info2.iterations.isTraj = false ∧
    info2.function_evaluations.isTraj = false := by
  unfold SolveInfo.snapshot at hsnap
  cases hres : info.residual with
  | none => simp [hres] at hsnap
  | some resT =>
    cases hx : info.x.atIdx i
    case none => simp [hres, hx] at hsnap
    case some x2 =>
    cases hr : resT.atIdx i
    case none => simp [hres, hx, hr] at hsnap
    case some r2 =>
    cases hit : info.iterations.atIdx i
    case none => simp [hres, hx, hr, hit] at hsnap
    case some it2 =>
    cases hfe : info.function_evaluations.atIdx i
    case none => simp [hres, hx, hr, hit, hfe] at hsnap
    case some fe2 =>
    cases hc : info.converged.atIdx i
    case none => simp [hres, hx, hr, hit, hfe, hc] at hsnap
    case some c2 =>
    cases hd : info.diverged.atIdx i
    case none => simp [hres, hx, hr, hit, hfe, hc, hd] at hsnap
    case some d2 =>
    simp only [hres, hx, hr, hit, hfe, hc, hd, Option.some_inj] at hsnap
    subst hsnap
    have hxt := atIdx_isTraj info.x i x2 hx
    have hitt := atIdx_isTraj info.iterations i it2 hit
    have hfet := atIdx_isTraj info.function_evaluations i fe2 hfe
    have hrt := atIdx_isTraj resT i r2 hr
    have hcav := FlagTensor.atIdx_avail info.converged i c2 hc
    have hdav := FlagTensor.atIdx_avail info.diverged i d2 hd
    have hmsg2 : (mkSolveInfo info.solve x2 (some r2) it2 fe2 c2 d2 info.method
        info.msg info.solve_time).msg = info.msg := by
      unfold mkSolveInfo
      by_cases hm : info.msg = ""
      · have := hmsg hm
        have hcond : ¬(info.msg = "" ∧ d2.avail = true ∧ c2.avail = true) := by
          rw [hcav, hdav]
          intro hand
          exact this ⟨hand.2.1, hand.2.2⟩
        simp only [hcond, if_false]
      · have hcond : ¬(info.msg = "" ∧ d2.avail = true ∧ c2.avail = true) := by
          intro hand
          exact hm hand.1
        simp only [hcond, if_false]
    refine ⟨rfl, rfl, rfl, hmsg2, rfl, ⟨resT, r2, rfl, hr, rfl, hrt⟩, rfl, rfl, rfl, rfl,
      hxt, hitt, hfet⟩

/-- First trajectory step for the C3 counterexample. -/
def c3r1 : NativeSolveResult Nat :=
  { x := 1, residual := some 5, iterations := 1, function_evaluations := 1,
    converged := [false], diverged := [false], conv_avail := true,
    div_avail := true, method := "CG", message := "" }

/-- Second (final) trajectory step for the C3 counterexample. -/
def c3r2 : NativeSolveResult Nat :=
  { x := 2, residual := some 0, iterations := 2, function_evaluations := 2,
    converged := [true], diverged := [false], conv_avail := true,
    div_avail := true, method := "CG", message := "" }

/-- Concrete tree operations for C3. -/
def c3ops : TreeOps Nat :=
  { disassemble := fun v => [v], reassemble := fun _ t => t,
    sub := fun a b => a - b, ofScalar := fun _ => 0 }

/-- Concrete backend recording a two-step trajectory for C3. -/
def c3backend : Backend Nat :=
  { name := "torch", linear_solve := fun _ _ _ _ _ _ _ _ => .traj [c3r1, c3r2],
    minimize := fun _ _ _ _ _ _ => .traj [c3r1, c3r2], linear := fun f v => f v,
    sub := fun a b => a - b }

/-- Concrete spec for C3. -/
def c3solve : Solve Nat := .mk "CG" 0 0 100 (some 0) [] none [] none 17

/-- C3 counterexample: on a concrete two-step trajectory-recorded linear
solve, the produced result carries the trajectory axis on `x`, `residual`
and `function_evaluations` but not on `iterations`, `converged` or
`diverged`, which hold the final step values without a trajectory axis —
refuting that every field carries an extra leading trajectory axis. -/
theorem claim_C3_counterexample :
    (lsf_result c3ops c3backend (fun v => v) c3solve 0 0 0 false true
        (.traj [c3r1, c3r2]) 0).map
      (fun p => (p.1.x.isTraj, p.1.residual.map TrajVal.isTraj,
        p.1.function_evaluations.isTraj, p.1.iterations, p.1.converged, p.1.diverged)) =
    .ok (true, some true, true, TrajVal.single 2,
      { avail := true, vals := .single [true] },
      { avail := true, vals := .single [false] }) := by
  rfl

/-- C3 amended: in a trajectory-recorded solve (linear-solve core and
minimize alike), `x`, `residual` and `function_evaluations` carry the extra
leading trajectory axis while `iterations`, `converged` and `diverged` hold
the final step values without one; `snapshot(index)` projects the
trajectory-carrying fields at that index into a trajectory-free result,
passes the trajectory-free fields through unchanged, and preserves the
spec, method, message and solve time. -/
theorem claim_C3_trajectory_amended (V : Type) :
    (∀ (ops : TreeOps V) (backend : Backend V) (lin_op : V → V) (solve : Solve V)
        (y_tree y_native x0_tree : V) (ta : Bool) (rs : List (NativeSolveResult V))
        (last : NativeSolveResult V) (resids : List V) (t : Rat),
      rs.getLast? = some last → rs.mapM (fun r => r.residual) = some resids →
      ∃ info, lsf_result ops backend lin_op solve y_tree y_native x0_tree ta true
          (.traj rs) t = .ok (info, ops.reassemble x0_tree last.x) ∧
        info.x = .traj (rs.map (fun r => ops.reassemble x0_tree r.x)) ∧
        info.residual = some (.traj (resids.map (fun res => ops.reassemble y_tree res))) ∧
        info.function_evaluations = .traj (rs.map (fun r => r.function_evaluations)) ∧
        info.iterations = .single last.iterations ∧
        info.converged = { avail := last.conv_avail, vals := .single last.converged } ∧
        info.diverged = { avail := last.div_avail, vals := .single last.diverged } ∧
        info.x.isTraj = true ∧ info.function_evaluations.isTraj = true ∧
        info.iterations.isTraj = false ∧
        info.solve = solve ∧ info.method = last.method ∧ info.solve_time = t ∧
        (∀ (i : Int) (info2 : SolveInfo V), info.snapshot i = some info2 →
          info2.solve = info.solve ∧ info2.method = info.method ∧
          info2.msg = info.msg ∧ info2.solve_time = info.solve_time ∧
          info.x.atIdx i = some info2.x ∧ info2.x.isTraj = false ∧
          info.function_evaluations.atIdx i = some info2.function_evaluations ∧
          info2.function_evaluations.isTraj = false ∧
          info2.iterations = info.iterations ∧
          info2.converged = info.converged ∧ info2.diverged = info.diverged ∧
          (∃ r2, info2.residual = some r2 ∧ r2.isTraj = false))) ∧
    (∀ (solve : Solve V) (rs : List (NativeSolveResult V))
        (last : NativeSolveResult V) (resids : List V) (t : Rat),
      rs.getLast? = some last → rs.mapM (fun r => r.residual) = some resids →
      ∃ info, min_result solve true (.traj rs) t = .ok (info, last.x) ∧
        info.x = .traj (rs.map (fun r => r.x)) ∧
        info.residual = some (.traj resids) ∧
        info.function_evaluations = .traj (rs.map (fun r => r.function_evaluations)) ∧
        info.iterations = .single last.iterations ∧
        info.converged = { avail := last.conv_avail, vals := .single last.converged } ∧
        info.diverged = { avail := last.div_avail, vals := .single last.diverged } ∧
        info.solve = solve ∧ info.method = last.method ∧ info.solve_time = t) := by
  constructor
  · intro ops backend lin_op solve y_tree y_native x0_tree ta rs last resids t hlast hmapm
    refine ⟨mkSolveInfo solve
      (.traj (rs.map (fun r => ops.reassemble x0_tree r.x)))
      (some (.traj (resids.map (fun res => ops.reassemble y_tree res))))
      (.single last.iterations)
      (.traj (rs.map (fun r => r.function_evaluations)))
      { avail := last.conv_avail, vals := .single last.converged }
      { avail := last.div_avail, vals := .single last.diverged }
      last.method last.message t, ?_, ?_⟩
    · simp only [lsf_result, hlast, hmapm]
    refine ⟨rfl, rfl, rfl, rfl, rfl, rfl, rfl, rfl, rfl, rfl, rfl, rfl, ?_⟩
    intro i info2 hsnap
    have hmc : (mkSolveInfo solve
          (.traj (rs.map (fun r => ops.reassemble x0_tree r.x)))
          (some (.traj (resids.map (fun res => ops.reassemble y_tree res))))
          (.single last.iterations)
          (.traj (rs.map (fun r => r.function_evaluations)))
          { avail := last.conv_avail, vals := .single last.converged }
          { avail := last.div_avail, vals := .single last.diverged }
          last.method last.message t).msg = "" →
          ¬(({ avail := last.div_avail, vals := .single last.diverged } : FlagTensor).avail = true ∧
            ({ avail := last.conv_avail, vals := .single last.converged } : FlagTensor).avail = true) :=
      fun hm => mkSolveInfo_msg_empty _ _ _ _ _ _ _ _ _ _ hm
    obtain ⟨h1, h2, h3, h4, h5, ⟨rT, r2, hrT, hr2, hres2, hrt2⟩, h7, h8, h9, h10,
      h11, h12, h13⟩ := snapshot_preserves _ i info2 hsnap hmc
    refine ⟨h1, h2, h4, h3, h5, h11, h8, h13, ?_, ?_, ?_, ⟨r2, hres2, hrt2⟩⟩
    · exact (Option.some.inj h7).symm
    · exact (Option.some.inj h9).symm
    · exact (Option.some.inj h10).symm
  · intro solve rs last resids t hlast hmapm
    refine ⟨mkSolveInfo solve (.traj (rs.map (fun r => r.x)))
      (some (.traj resids)) (.single last.iterations)
      (.traj (rs.map (fun r => r.function_evaluations)))
      { avail := last.conv_avail, vals := .single last.converged }
      { avail := last.div_avail, vals := .single last.diverged }
      last.method last.message t, ?_, ?_⟩
    · simp only [min_result, hlast, hmapm]
    · exact ⟨rfl, rfl, rfl, rfl, rfl, rfl, rfl, rfl, rfl⟩

/-- Witness for the amended C3: the concrete two-step trajectory run has the
stated field shapes and snapshot behaviour. -/
theorem claim_C3_witness :
    [c3r1, c3r2].getLast? = some c3r2 ∧
    [c3r1, c3r2].mapM (fun r => r.residual) = some [5, 0] ∧
    (∃ info, lsf_result c3ops c3backend (fun v => v) c3solve 0 0 0 false true
        (.traj [c3r1, c3r2]) 0 = .ok (info, c3ops.reassemble 0 c3r2.x) ∧
      info.x = .traj ([c3r1, c3r2].map (fun r => c3ops.reassemble 0 r.x)) ∧
      info.residual = some (.traj (([5, 0] : List Nat).map (fun res => c3ops.reassemble 0 res))) ∧
      info.function_evaluations = .traj ([c3r1, c3r2].map (fun r => r.function_evaluations)) ∧
      info.iterations = .single c3r2.iterations ∧
      info.converged = { avail := c3r2.conv_avail, vals := .single c3r2.converged } ∧
      info.diverged = { avail := c3r2.div_avail, vals := .single c3r2.diverged } ∧
      info.x.isTraj = true ∧ info.function_evaluations.isTraj = true ∧
      info.iterations.isTraj = false ∧
      info.solve = c3solve ∧ info.method = c3r2.method ∧ info.solve_time = 0 ∧
      (∀ (i : Int) (info2 : SolveInfo Nat), info.snapshot i = some info2 →
        info2.solve = info.solve ∧ info2.method = info.method ∧
        info2.msg = info.msg ∧ info2.solve_time = info.solve_time ∧
        info.x.atIdx i = some info2.x ∧ info2.x.isTraj = false ∧
        info.function_evaluations.atIdx i = some info2.function_evaluations ∧
        info2.function_evaluations.isTraj = false ∧
        info2.iterations = info.iterations ∧
        info2.converged = info.converged ∧ info2.diverged = info.diverged ∧
        (∃ r2, info2.residual = some r2 ∧ r2.isTraj = false))) := by
  refine ⟨rfl, rfl, ?_⟩
  exact (claim_C3_trajectory_amended Nat).1 c3ops c3backend (fun v => v) c3solve
    0 0 0 false [c3r1, c3r2] c3r2 [5, 0] 0 rfl rfl

/-- Non-converged backend result for the witness of C8. -/
def c8r : NativeSolveResult Nat :=
  { x := 11, residual := some 4, iterations := 1, function_evaluations := 2,
    converged := [false], diverged := [false], conv_avail := true,
    div_avail := true, method := "GD", message := "" }

/-- Concrete backend for the witness of C8. -/
def c8backend : Backend Nat :=
  { name := "torch", linear_solve := fun _ _ _ _ _ _ _ _ => .single c8r,
    minimize := fun _ _ _ _ _ _ => .single c8r, linear := fun f v => f v,
    sub := fun a b => a - b }

/-- Concrete spec for the witness of C8: iteration budget one,
`NotConverged` suppressed. -/
def c8solve : Solve Nat := .mk "GD" 0 0 1 (some 0) [ExcKind.notConverged] none [] none 8

/-- Witness for C8: a solve that cannot reach tolerance within one iteration
with `NotConverged` suppressed returns without raising, and the returned
solution is the backend's reported partial iterate. -/
theorem claim_C8_witness :
    c8solve.relative_tolerance = 0 ∧ c8solve.preprocess_y = none ∧
    c8solve.x0 = some 0 ∧ c8solve.max_iterations = 1 ∧
    ([] : List (SolveTape Nat)).any (fun tp => tp.record_trajectories) = false ∧
    c8backend.minimize c8solve.method (fun v => v) 0 c8solve.absolute_tolerance
      c8solve.max_iterations false = .single c8r ∧
    c8r.residual = some 4 ∧ c8r.converged.all id = false ∧
    ExcKind.notConverged ∈ c8solve.suppress ∧
    (∃ out, minimize_run { name := "loss", fn := fun v => v } c8solve c8backend [] 0 = .ok out ∧
      out.x = c8r.x) := by
  refine ⟨rfl, rfl, rfl, rfl, rfl, rfl, rfl, rfl, by decide, ?_⟩
  exact (claim_C8_suppressed_returns_x Nat).1 { name := "loss", fn := fun v => v }
    c8solve c8backend [] 0 0 c8r 4 rfl rfl rfl rfl rfl rfl
    (fun h => absurd h (by decide)) (fun _ => by decide)

/-- C9: the structural preconditions are fatal for every spec, whatever the
suppression set: `minimize` fails on any nonzero relative tolerance and on
any set `preprocess_y` hook; the objective wrapper fails with a message
naming the offending user function when the output still has non-batch
dimensions; and `solve_linear` fails unless the structural decomposition of
the unknown and of the target yields exactly one tensor component each. -/
theorem claim_C9_structural_preconditions (V : Type) :
    (∀ (f : NamedFn V V) (solve : Solve V) (backend : Backend V)
        (tapes : List (SolveTape V)) (t : Rat),
      solve.relative_tolerance ≠ 0 →
      ∃ msg, minimize_run f solve backend tapes t = .error (.assertion msg)) ∧
    (∀ (f : NamedFn V V) (solve : Solve V) (backend : Backend V)
        (tapes : List (SolveTape V)) (t : Rat),
      solve.preprocess_y.isSome = true →
      ∃ msg, minimize_run f solve backend tapes t = .error (.assertion msg)) ∧
    (∀ (disassemble : V → List V) (non_batch batch_of : V → List String)
        (sumOf : V → Rat) (batch_dims : List String) (f : NamedFn V V) (x y0 : V)
        (rest : List V),
      disassemble (f.fn x) = y0 :: rest → (non_batch y0).isEmpty = false →
      ∃ pre post, native_function disassemble non_batch batch_of sumOf batch_dims f x =
        .error (.assertion (pre ++ f.name ++ post))) ∧
    (∀ (ops : TreeOps V) (backend : Backend V) (f : V → V) (y : V)
        (solve : Solve V) (tapes : List (SolveTape V)) (t : Rat),
      ¬((match solve.x0 with
         | none => []
         | some x0t => ops.disassemble x0t).length = 1 ∧
        (ops.disassemble y).length = 1) →
      solve_linear_run ops backend f y solve tapes t =
        .error (.assertion "Only single-tensor linear solves are currently supported")) := by
  refine ⟨?_, ?_, ?_, ?_⟩
  · intro f solve backend tapes t h
    refine ⟨"relative_tolerance must be zero for minimize but got a nonzero value", ?_⟩
    simp [minimize_run, h]
  · intro f solve backend tapes t h
    by_cases hrt : solve.relative_tolerance = 0
    · refine ⟨"minimize does not allow preprocess_y", ?_⟩
      simp [minimize_run, hrt, h]
    · refine ⟨"relative_tolerance must be zero for minimize but got a nonzero value", ?_⟩
      simp [minimize_run, hrt]
  · intro disassemble non_batch batch_of sumOf batch_dims f x y0 rest hdis hnb
    refine ⟨"Failed to minimize ",
      " because it returned a non-scalar output. Reduce all non-batch dimensions, e.g. using math.l2_loss", ?_⟩
    simp [native_function, hdis, hnb]
  · intro ops backend f y solve tapes t h
    simp [solve_linear_run, h]

/-- Spec with a nonzero relative tolerance for the witness of C9 (with a
suppression set, showing suppression does not help). -/
def c9solve : Solve Nat :=
  .mk "GD" 1 0 10 (some 0) [ExcKind.notConverged, ExcKind.diverged] none [] none 30

/-- Spec with a set preprocess hook for the witness of C9. -/
def c9solveB : Solve Nat :=
  .mk "GD" 0 0 10 (some 0) [ExcKind.notConverged, ExcKind.diverged]
    (some ⟨2, fun v _ => v⟩) [] none 31

/-- Spec with a two-tensor initial guess for the witness of C9. -/
def c9solveC : Solve Nat :=
  .mk "CG" 0 0 10 (some 2) [ExcKind.notConverged, ExcKind.diverged] none [] none 32

/-- Tree operations that decompose a value into two components, for the
witness of C9. -/
def c9ops : TreeOps Nat :=
  { disassemble := fun v => [v, v], reassemble := fun _ t => t,
    sub := fun a b => a - b, ofScalar := fun _ => 0 }

/-- Objective with a non-scalar output (one non-batch dimension), for the
witness of C9. -/
def c9f : NamedFn Nat Nat := { name := "my_loss", fn := fun v => v }

/-- Witness for C9: at concrete inputs, minimize rejects a nonzero relative
tolerance and a set preprocess hook even with every failure kind
suppressed, the objective wrapper fails naming the user function on a
non-scalar output, and solve_linear rejects a two-tensor decomposition. -/
theorem claim_C9_witness :
    c9solve.relative_tolerance ≠ 0 ∧
    (∃ msg, minimize_run c9f c9solve c8backend [] 0 = .error (.assertion msg)) ∧
    c9solveB.preprocess_y.isSome = true ∧
    (∃ msg, minimize_run c9f c9solveB c8backend [] 0 = .error (.assertion msg)) ∧
    (fun (_ : Nat) => ["vector"]) 7 = ["vector"] ∧
    (∃ pre post, native_function (fun v => [v]) (fun _ => ["vector"]) (fun _ => [])
      (fun _ => 0) [] c9f 7 = .error (.assertion (pre ++ c9f.name ++ post))) ∧
    ¬((match c9solveC.x0 with
       | none => []
       | some x0t => c9ops.disassemble x0t).length = 1 ∧
      (c9ops.disassemble 5).length = 1) ∧
    solve_linear_run c9ops c8backend (fun v => v) 5 c9solveC [] 0 =
      .error (.assertion "Only single-tensor linear solves are currently supported") := by
  refine ⟨by decide, ?_, rfl, ?_, rfl, ?_, by decide, ?_⟩
  · exact (claim_C9_structural_preconditions Nat).1 c9f c9solve c8backend [] 0 (by decide)
  · exact (claim_C9_structural_preconditions Nat).2.1 c9f c9solveB c8backend [] 0 rfl
  · exact (claim_C9_structural_preconditions Nat).2.2.1 (fun v => [v]) (fun _ => ["vector"])
      (fun _ => []) (fun _ => 0) [] c9f 7 7 [] rfl rfl
  · exact (claim_C9_structural_preconditions Nat).2.2.2 c9ops c8backend (fun v => v) 5
      c9solveC [] 0 (by decide)
